import Mathlib

/-!
Verification of the TwinCAT VirtualBox provisioning tool (`src/app.mjs`,
two variants: the base one reading the `iso` folder and the extended one
reading `installerImages` with a NAT/Bridged prompt).

The program is a linear orchestration script: it gathers operator input,
checks filesystem preconditions, and shells out to VBoxManage in a fixed
order.  We embed it shallowly: the environment (filesystem, VBoxManage
text outputs) and the operator's prompt answers are explicit inputs, and a
run produces the ordered trace of issued commands, the log lines, and the
exit code.  JavaScript string-to-number coercion (`Number`, `parseInt`,
`isNaN`) is modelled exactly on the fragment the program exercises: finite
decimal numerals with sign, fraction, exponent, and radix-prefixed
integers, kept as exact rationals (the `Infinity` literals, IEEE-754
rounding and non-ASCII whitespace are outside the fragment and are not
modelled).
-/

/-- JavaScript ASCII whitespace as used by `trim`, `parseInt` and `Number`
(the unicode space classes are not modelled). -/
def isJsSpace (c : Char) : Bool :=
  c = ' ' || c = '\t' || c = '\n' || c = '\r' || c = '\x0b' || c = '\x0c'

/-- Digits of a decimal numeral to its value. -/
def digitsToNat (l : List Char) : Nat :=
  l.foldl (fun a c => a * 10 + (c.toNat - ('0').toNat)) 0

def takeDigits (l : List Char) : List Char := l.takeWhile Char.isDigit

def dropDigits (l : List Char) : List Char := l.dropWhile Char.isDigit

/-- JavaScript `String.prototype.trim` on the ASCII fragment. -/
def trimJs (l : List Char) : List Char :=
  ((l.dropWhile isJsSpace).reverse.dropWhile isJsSpace).reverse

/-- The exponent part of a JS numeric literal, after the `e`: an optional
sign and a nonempty digit run that must consume the whole rest. -/
def expValue (l : List Char) : Option Int :=
  match l with
  | '+' :: t => if !t.isEmpty && t.all Char.isDigit then some (Int.ofNat (digitsToNat t)) else none
  | '-' :: t => if !t.isEmpty && t.all Char.isDigit then some (-(Int.ofNat (digitsToNat t))) else none
  | t => if !t.isEmpty && t.all Char.isDigit then some (Int.ofNat (digitsToNat t)) else none

/-- After the mantissa of a decimal literal: nothing (exponent 0), or an
exponent part consuming the whole rest; anything else makes the literal
invalid (NaN). -/
def expPart (rest : List Char) : Option Int :=
  match rest with
  | [] => some 0
  | 'e' :: t => expValue t
  | 'E' :: t => expValue t
  | _ => none

/-- A decimal JS numeric literal: digits, optional `.` and fraction digits
(at least one digit on one side of the dot), optional exponent.  The value
is returned scaled, as (digits of `ip ++ fp`, decimal exponent). -/
def jsDecimal (l : List Char) : Option (Nat × Int) :=
  let ip := takeDigits l
  let r1 := dropDigits l
  match r1 with
  | '.' :: t =>
      let fp := takeDigits t
      let r2 := dropDigits t
      if ip.isEmpty && fp.isEmpty then none
      else (expPart r2).map (fun e => (digitsToNat (ip ++ fp), e - (fp.length : Int)))
  | _ => if ip.isEmpty then none else (expPart r1).map (fun e => (digitsToNat ip, e))

/-- The exact rational `±d * 10^e`. -/
def scaledToRat (neg : Bool) (p : Nat × Int) : Rat :=
  let n : Int := if neg then -(p.1 : Int) else (p.1 : Int)
  if 0 ≤ p.2 then mkRat (n * ((10 ^ p.2.toNat : Nat) : Int)) 1
  else mkRat n (10 ^ (-p.2).toNat)

def isHexDigitJs (c : Char) : Bool :=
  c.isDigit || ('a' ≤ c && c ≤ 'f') || ('A' ≤ c && c ≤ 'F')

def hexDigitVal (c : Char) : Nat :=
  if c.isDigit then c.toNat - ('0').toNat
  else if 'a' ≤ c && c ≤ 'f' then c.toNat - ('a').toNat + 10
  else c.toNat - ('A').toNat + 10

/-- A radix-prefixed integer body (after `0x`, `0b`, `0o`): nonempty, all
digits of the radix, consuming the whole rest. -/
def radixValue (base : Nat) (isD : Char → Bool) (val : Char → Nat) (t : List Char) :
    Option (Nat × Int) :=
  if !t.isEmpty && t.all isD then some ((t.foldl (fun a c => a * base + val c) 0 : Nat), 0)
  else none

/-- An unsigned JS numeric literal: a radix-prefixed integer or a decimal
literal. -/
def jsUnsigned (l : List Char) : Option (Nat × Int) :=
  match l with
  | '0' :: 'x' :: t => radixValue 16 isHexDigitJs hexDigitVal t
  | '0' :: 'X' :: t => radixValue 16 isHexDigitJs hexDigitVal t
  | '0' :: 'b' :: t => radixValue 2 (fun c => c = '0' || c = '1') (fun c => c.toNat - ('0').toNat) t
  | '0' :: 'B' :: t => radixValue 2 (fun c => c = '0' || c = '1') (fun c => c.toNat - ('0').toNat) t
  | '0' :: 'o' :: t => radixValue 8 (fun c => '0' ≤ c && c ≤ '7') (fun c => c.toNat - ('0').toNat) t
  | '0' :: 'O' :: t => radixValue 8 (fun c => '0' ≤ c && c ≤ '7') (fun c => c.toNat - ('0').toNat) t
  | m => jsDecimal m

/-- A trimmed JS numeric string: empty means `0`; a sign admits only a
decimal body (JS rejects a signed radix prefix). -/
def jsNumberOfTrimmed (l : List Char) : Option Rat :=
  match l with
  | [] => some 0
  | '+' :: t => (jsDecimal t).map (scaledToRat false)
  | '-' :: t => (jsDecimal t).map (scaledToRat true)
  | m => (jsUnsigned m).map (scaledToRat false)

/-- JavaScript `Number(s)` on the modelled fragment: `none` is NaN. -/
def jsToNumber (s : String) : Option Rat :=
  jsNumberOfTrimmed (trimJs s.toList)

/-- The disk-size validator of both variants, from
`(input) => !isNaN(input) && input > 0`: both `isNaN` and the comparison
against the number `0` coerce the string with `Number`. -/
def validateHddSize (s : String) : Bool :=
  match jsToNumber s with
  | none => false
  | some x => decide (0 < x)

def leadingDigitsVal (l : List Char) : Option Nat :=
  let d := takeDigits l
  if d.isEmpty then none else some (digitsToNat d)

/-- JavaScript `parseInt(s, 10)`: leading whitespace dropped, optional
sign, value of the longest leading digit run; NaN (`none`) without one. -/
def jsParseInt (s : String) : Option Int :=
  match s.toList.dropWhile isJsSpace with
  | '-' :: t => (leadingDigitsVal t).map (fun n => -(n : Int))
  | '+' :: t => (leadingDigitsVal t).map (fun n => (n : Int))
  | t => (leadingDigitsVal t).map (fun n => (n : Int))

/-- Rendering a possibly-NaN integer into a command string, as a JS
template literal does. -/
def jsNumToString (x : Option Int) : String :=
  match x with
  | none => "NaN"
  | some n => toString n

/-- `hddSizeGB * 1024` on a possibly-NaN integer (NaN propagates). -/
def jsMul1024 (x : Option Int) : Option Int := x.map (fun n => n * 1024)

/-- Substring containment on char lists, as JS `String.prototype.includes`. -/
def listIncludes (needle : List Char) : List Char → Bool
  | [] => needle.isEmpty
  | c :: t => needle.isPrefixOf (c :: t) || listIncludes needle t

def strIncludes (hay needle : String) : Bool := listIncludes needle.toList hay.toList

/-- JS `String.prototype.endsWith`. -/
def strEndsWith (s suffixStr : String) : Bool :=
  suffixStr.toList.reverse.isPrefixOf s.toList.reverse

/-- Windows path join as `path.join` behaves on the paths this tool builds
(no `..` or separator normalisation is exercised by the program). -/
def pathJoin (a b : String) : String := a ++ "\\" ++ b

def virtualBoxPath : String := "C:\\Program Files\\Oracle\\VirtualBox"

def vboxManageFile : String := pathJoin virtualBoxPath "VBoxManage.exe"

def hddSizeGBDefault : Nat := 10

/-- The base variant's `iso` folder under the working directory. -/
def isoFolder (cwd : String) : String := pathJoin cwd "iso"

/-- The extended variant's `installerImages` folder. -/
def installerImagesFolder (cwd : String) : String := pathJoin cwd "installerImages"

/-- Quoting as the template literals do: the string in double quotes. -/
def dq (s : String) : String := "\"" ++ s ++ "\""

/-- One external invocation: its kind and the exact command string. -/
inductive CmdKind where
  | listSystemProperties
  | listVms
  | listBridgedifs
  | createvm
  | modifyvmHW
  | modifyvmNic
  | convertfromraw
  | storagectl
  | storageattach
  | createmedium
  | startvm
deriving DecidableEq

structure Invocation where
  kind : CmdKind
  cmd : String
deriving DecidableEq

/-- Whether a command mutates hypervisor state (the three `list` queries do
not; everything from `createvm` to the launch does). -/
def CmdKind.mutating : CmdKind → Bool
  | CmdKind.listSystemProperties => false
  | CmdKind.listVms => false
  | CmdKind.listBridgedifs => false
  | _ => true

def sysPropsCmd : String := dq vboxManageFile ++ " list systemproperties"

def listVmsCmd : String := dq vboxManageFile ++ " list vms"

def bridgedifsCmd : String := dq vboxManageFile ++ " list bridgedifs"

/-- `createvm --name ${name} --basefolder "${dir}" --ostype FreeBSD_64
--register`: the name is interpolated bare, the folder quoted. -/
def createvmCmd (vbox name folder : String) : String :=
  dq vbox ++ " createvm --name " ++ name ++ " --basefolder " ++ dq folder ++
    " --ostype FreeBSD_64 --register"

def modifyvmHWCmd (vbox name : String) : String :=
  dq vbox ++ " modifyvm " ++ dq name ++
    " --memory 1024 --vram 128 --acpi on --hpet on --graphicscontroller vmsvga --firmware efi64"

def nicNatCmd (vbox name : String) : String :=
  dq vbox ++ " modifyvm " ++ dq name ++ " --nic1 nat"

def nicBridgedCmd (vbox name adapter : String) : String :=
  dq vbox ++ " modifyvm " ++ dq name ++ " --nic1 bridged --bridgeadapter1 " ++ dq adapter

/-- `convertfromraw --format VDI ${src} "${vdi}"`: the source image path is
interpolated bare, the target quoted. -/
def convertCmd (vbox src vdi : String) : String :=
  dq vbox ++ " convertfromraw --format VDI " ++ src ++ " " ++ dq vdi

def storagectlCmd (vbox name : String) : String :=
  dq vbox ++ " storagectl " ++ dq name ++
    " --name SATA --add sata --controller IntelAhci --hostiocache on --bootable on"

def attachCmd (vbox name : String) (port : Nat) (medium : String) : String :=
  dq vbox ++ " storageattach " ++ dq name ++ " --storagectl \"SATA\" --port " ++
    toString port ++ " --device 0 --type hdd --medium " ++ dq medium

def createmediumCmd (vbox vhd : String) (size : Option Int) : String :=
  dq vbox ++ " createmedium --filename " ++ dq vhd ++ " --size " ++
    jsNumToString size ++ " --format VHD"

/-- `start "" "${vboxFile}"`. -/
def startCmd (vboxFile : String) : String := "start \"\" " ++ dq vboxFile

def vbNotFoundMsg1 : String := "Failed: VBoxManage not found at: " ++ virtualBoxPath

def vbNotFoundMsg2 : String := "Please install VirtualBox or provide the correct path."

def noIsoFolderMsg : String :=
  "'iso' folder not found. Please create a folder named 'iso' and place your ISOs there."

def noIsosMsg : String :=
  "No ISO files found in the 'iso' folder. Please add some ISOs."

def noImagesFolderMsg : String :=
  "'installerImages' folder not found. Please create a folder named 'installerImages' and place your ISOs and IMG files there."

def noImagesMsg : String :=
  "No image files found in the 'installerImages' folder. Please add some ISOs or IMG files."

def fallbackFolderMsg : String := "Could not detect default VirtualBox VM folder. Falling back."

def noBridgedPromptMsg : String := "No bridged adapters found. Using NAT."

def noBridgedSetupMsg : String :=
  "No bridged adapters found. Network adapter will not be configured."

def settingNatMsg : String := "Setting network adapter to NAT"

def settingBridgedMsg (a : String) : String := "Setting bridged network adapter to: " ++ a

def alreadyExistsMsg (name : String) : String :=
  "Virtual Machine '" ++ name ++ "' already exists."

def deleteFirstMsg : String := "To recreate, manually delete it from VirtualBox first."

def missingIsoMsg (sel : String) : String := "Failed: Missing TCBSD image: " ++ sel

def missingImgMsg (sel : String) : String := "Failed: Missing TC image: " ++ sel

def creatingVmMsg (name : String) : String := "\n➤ Creating VM: " ++ name

def convertingIsoMsg : String := "\n➤ Converting ISO to installer VDI..."

def convertingImgMsg : String := "\n➤ Converting image to installer VDI..."

def creatingHddMsg (g : Option Int) : String :=
  "\n➤ Creating runtime HDD: " ++ jsNumToString g ++ "GB"

def startingMsg : String := "\n➤ Starting Virtual Machine..."

def completeMsg (name : String) : String :=
  "✔ Virtual Machine '" ++ name ++ "' setup complete."

/-- The first line of a string, as `output.split("\n")[0]`. -/
def headLine (s : String) : List Char := s.toList.takeWhile (fun c => c ≠ '\n')

/-- `l.split(":")[1]`: the piece between the first and second colon, absent
when the string has no colon. -/
def afterFirstColon (l : List Char) : Option (List Char) :=
  match l.dropWhile (fun c => c ≠ ':') with
  | ':' :: t => some (t.takeWhile (fun c => c ≠ ':'))
  | _ => none

/-- The base variant's first-line adapter heuristic:
`bridgedAdapters.split("\n")[0].split(":")[1]?.trim()`; `none` models the
`undefined` of a first line without a colon. -/
def firstAdapterOf (output : String) : Option String :=
  (afterFirstColon (headLine output)).map (fun l => String.mk (trimJs l))

/-- Splitting a char list at every occurrence of a separator, as JS
`String.prototype.split` with a one-character separator. -/
def splitOnSep (sep : Char) : List Char → List (List Char)
  | [] => [[]]
  | c :: t =>
      match splitOnSep sep t with
      | [] => [[]]
      | h :: r => if c = sep then [] :: h :: r else (c :: h) :: r

/-- One line of `list bridgedifs` output through the extended variant's
pipeline: trim, keep lines starting `Name:`, take `split(":")[1].trim()`. -/
def adapterOfLine (line : List Char) : Option String :=
  let tl := trimJs line
  if ("Name:").toList.isPrefixOf tl then
    match afterFirstColon tl with
    | some rest => some (String.mk (trimJs rest))
    | none => none
  else none

/-- The extended variant's `listBridgedAdapters`: structured line scan of
the interface listing; an invocation failure yields `[]` (the `catch`). -/
def listBridgedAdapters (queryResult : Except Unit String) : List String :=
  match queryResult with
  | Except.error _ => []
  | Except.ok output =>
      ((splitOnSep '\n' output.toList).filterMap adapterOfLine).filter (fun a => !a.isEmpty)

def dmfLabel : List Char := ("Default machine folder:").toList

/-- The regex `/Default machine folder:\s+(.*)/` at one position: at least
one whitespace character after the label, then the capture runs to the end
of the line (`.` stops at a line terminator). -/
def matchAfterLabel (l : List Char) : Option (List Char) :=
  if (l.takeWhile isJsSpace).isEmpty then none
  else some ((l.dropWhile isJsSpace).takeWhile (fun c => c ≠ '\n' && c ≠ '\r'))

/-- First position where the whole pattern matches, scanning left to
right as the regex engine does. -/
def findDmf : List Char → Option (List Char)
  | [] => none
  | c :: t =>
      if dmfLabel.isPrefixOf (c :: t) then
        match matchAfterLabel ((c :: t).drop dmfLabel.length) with
        | some cap => some cap
        | none => findDmf t
      else findDmf t

/-- `output.match(/Default machine folder:\s+(.*)/)` followed by
`match[1].trim()`. -/
def extractDefaultMachineFolder (output : String) : Option String :=
  (findDmf output.toList).map (fun cap => String.mk (trimJs cap))

/-- `getDefaultVMFolder` of both variants: on a successful
`list systemproperties` query the trimmed capture, or `none` for the
JS `null` when the label is absent; on an invocation failure the fixed
fallback under the operator's home directory. -/
def getDefaultVMFolder (queryResult : Except Unit String) (homedir : String) : Option String :=
  match queryResult with
  | Except.ok output => extractDefaultMachineFolder output
  | Except.error _ => some (pathJoin homedir "VirtualBox VMs")

/-- The log line `getDefaultVMFolder` emits: only the `catch` branch
prints. -/
def folderDefaultLog (queryResult : Except Unit String) : List String :=
  match queryResult with
  | Except.ok _ => []
  | Except.error _ => [fallbackFolderMsg]

def isoAllowed (f : String) : Bool := strEndsWith f ".iso"

def imgAllowed (f : String) : Bool := strEndsWith f ".iso" || strEndsWith f ".img"

/-- The base variant's `getAvailableISOs`: fatal without the folder, fatal
when no `.iso` file is in the listing, otherwise the matching filenames in
listing order. -/
def getAvailableISOs (folderPresent : Bool) (listing : List String) :
    Except String (List String) :=
  if folderPresent then
    let isoFiles := listing.filter isoAllowed
    if isoFiles.isEmpty then Except.error noIsosMsg else Except.ok isoFiles
  else Except.error noIsoFolderMsg

/-- The extended variant's `getAvailableInstallerImages`: as above with
`.iso` or `.img` allowed. -/
def getAvailableInstallerImages (folderPresent : Bool) (listing : List String) :
    Except String (List String) :=
  if folderPresent then
    let imgFiles := listing.filter imgAllowed
    if imgFiles.isEmpty then Except.error noImagesMsg else Except.ok imgFiles
  else Except.error noImagesFolderMsg

/-- The world a run sees: filesystem facts and the text each VBoxManage
query would return (`Except.error` models the invocation throwing). -/
structure Env where
  vboxManageExists : Bool
  imagesFolderExists : Bool
  imagesListing : List String
  cwd : String
  homedir : String
  sysPropsQuery : Except Unit String
  bridgedifsQuery : Except Unit String
  listVMsOutput : String
  fileExists : String → Bool

/-- The operator's answers, one per prompt. The prompt library returns
only listed choices and re-prompts the disk size until the validator
passes, so theorems restrict `imgIndex`, `adapterIndex` and `hddAnswer`
accordingly where it matters. -/
structure Answers where
  nameAnswer : String
  imgIndex : Nat
  hddAnswer : String
  folderAnswer : String
  networkAnswer : String
  adapterIndex : Nat

/-- What the extended `promptUser` returns. -/
structure PromptResult where
  virtualMachineName : String
  imgSelection : String
  hddSizeGB : Option Int
  vmFolder : String
  networkType : String
  bridgedAdapter : Option String
deriving DecidableEq

/-- What the base `promptUser` returns. -/
structure BasePromptResult where
  virtualMachineName : String
  isoSelection : String
  hddSizeGB : Option Int
  vmFolder : String
deriving DecidableEq

/-- A finished run: ordered trace of external invocations, log lines, and
the process exit code. -/
structure RunResult where
  trace : List Invocation
  log : List String
  exitCode : Nat
deriving DecidableEq

/-- The extended variant's `promptUser`: image catalog (fatal exits map to
a `RunResult` with exit code 1), the five prompts, the NAT fallback when
Bridged is chosen and no adapter is discovered.  The `list
systemproperties` query happens while building the folder prompt's
default; `checkVBoxManage` and the `list bridgedifs` query run only in
the Bridged branch. -/
def promptUserExt (env : Env) (ans : Answers) :
    Except RunResult (PromptResult × List Invocation × List String) :=
  match getAvailableInstallerImages env.imagesFolderExists env.imagesListing with
  | Except.error msg => Except.error ⟨[], [msg], 1⟩
  | Except.ok images =>
      let imgSelection := (images.get? ans.imgIndex).getD ""
      let hdd := jsParseInt ans.hddAnswer
      let tSys : List Invocation := [⟨CmdKind.listSystemProperties, sysPropsCmd⟩]
      let lSys := folderDefaultLog env.sysPropsQuery
      if ans.networkAnswer = "bridged" then
        if env.vboxManageExists then
          let adapters := listBridgedAdapters env.bridgedifsQuery
          let tB := tSys ++ [⟨CmdKind.listBridgedifs, bridgedifsCmd⟩]
          if adapters.isEmpty then
            Except.ok (⟨ans.nameAnswer, imgSelection, hdd, ans.folderAnswer, "nat", none⟩,
              tB, lSys ++ [noBridgedPromptMsg])
          else
            Except.ok (⟨ans.nameAnswer, imgSelection, hdd, ans.folderAnswer, "bridged",
              adapters.get? ans.adapterIndex⟩, tB, lSys)
        else Except.error ⟨tSys, lSys ++ [vbNotFoundMsg1, vbNotFoundMsg2], 1⟩
      else
        Except.ok (⟨ans.nameAnswer, imgSelection, hdd, ans.folderAnswer, ans.networkAnswer, none⟩,
          tSys, lSys)

/-- The extended variant's `setupVM` given the collected parameters:
tool check, image existence check, VM-name collision check against the
`list vms` output, then the fixed provisioning sequence. -/
def setupVMExt (env : Env) (r : PromptResult) : RunResult :=
  if env.vboxManageExists then
    let vbox := vboxManageFile
    let imgPath := pathJoin (installerImagesFolder env.cwd) r.imgSelection
    if env.fileExists imgPath then
      let t0 : List Invocation := [⟨CmdKind.listVms, listVmsCmd⟩]
      if strIncludes env.listVMsOutput (dq r.virtualMachineName) then
        ⟨t0, [alreadyExistsMsg r.virtualMachineName, deleteFirstMsg], 1⟩
      else
        let name := r.virtualMachineName
        let workingDirectory := r.vmFolder
        let installerVdi := pathJoin (pathJoin workingDirectory name) "TcBSD_installer.vdi"
        let runtimeVhd := pathJoin (pathJoin workingDirectory name) "TcBSD.vhd"
        let vboxFile := pathJoin (pathJoin workingDirectory name) (name ++ ".vbox")
        let netPart : List Invocation × List String :=
          if r.networkType = "bridged" then
            match r.bridgedAdapter with
            | none => ([], [noBridgedSetupMsg])
            | some a => ([⟨CmdKind.modifyvmNic, nicBridgedCmd vbox name a⟩],
                [settingBridgedMsg a])
          else ([⟨CmdKind.modifyvmNic, nicNatCmd vbox name⟩], [settingNatMsg])
        ⟨t0 ++ [⟨CmdKind.createvm, createvmCmd vbox name workingDirectory⟩,
            ⟨CmdKind.modifyvmHW, modifyvmHWCmd vbox name⟩] ++ netPart.1 ++
            [⟨CmdKind.convertfromraw, convertCmd vbox imgPath installerVdi⟩,
             ⟨CmdKind.storagectl, storagectlCmd vbox name⟩,
             ⟨CmdKind.storageattach, attachCmd vbox name 1 installerVdi⟩,
             ⟨CmdKind.createmedium, createmediumCmd vbox runtimeVhd (jsMul1024 r.hddSizeGB)⟩,
             ⟨CmdKind.storageattach, attachCmd vbox name 0 runtimeVhd⟩,
             ⟨CmdKind.startvm, startCmd vboxFile⟩],
         [creatingVmMsg name] ++ netPart.2 ++
            [convertingImgMsg, creatingHddMsg r.hddSizeGB, startingMsg, completeMsg name],
         0⟩
    else ⟨[], [missingImgMsg r.imgSelection], 1⟩
  else ⟨[], [vbNotFoundMsg1, vbNotFoundMsg2], 1⟩

/-- One whole run of the extended variant (every issued external command
is assumed to succeed, as the claims quantify over completed runs). -/
def runProgramExt (env : Env) (ans : Answers) : RunResult :=
  match promptUserExt env ans with
  | Except.error r => r
  | Except.ok (res, t, l) =>
      let s := setupVMExt env res
      ⟨t ++ s.trace, l ++ s.log, s.exitCode⟩

/-- The base variant's `promptUser`: ISO catalog and the four prompts (no
network prompt). -/
def promptUserBase (env : Env) (ans : Answers) :
    Except RunResult (BasePromptResult × List Invocation × List String) :=
  match getAvailableISOs env.imagesFolderExists env.imagesListing with
  | Except.error msg => Except.error ⟨[], [msg], 1⟩
  | Except.ok isos =>
      Except.ok (⟨ans.nameAnswer, (isos.get? ans.imgIndex).getD "",
          jsParseInt ans.hddAnswer, ans.folderAnswer⟩,
        [⟨CmdKind.listSystemProperties, sysPropsCmd⟩], folderDefaultLog env.sysPropsQuery)

/-- The base variant's `setupVM`: after the two fatal checks it queries
`list bridgedifs` (a failure there is an uncaught throw, re-raised by the
process-level handler: exit code 7) and configures the adapter only when
the first line of that output yields a nonempty name (`!firstAdapter`
skips on `undefined` and on the empty string). -/
def setupVMBase (env : Env) (r : BasePromptResult) : RunResult :=
  if env.vboxManageExists then
    let vbox := vboxManageFile
    let isoPath := pathJoin (isoFolder env.cwd) r.isoSelection
    if env.fileExists isoPath then
      let t0 : List Invocation := [⟨CmdKind.listVms, listVmsCmd⟩]
      if strIncludes env.listVMsOutput (dq r.virtualMachineName) then
        ⟨t0, [alreadyExistsMsg r.virtualMachineName, deleteFirstMsg], 1⟩
      else
        let name := r.virtualMachineName
        let workingDirectory := r.vmFolder
        let t1 := t0 ++ [⟨CmdKind.createvm, createvmCmd vbox name workingDirectory⟩,
          ⟨CmdKind.modifyvmHW, modifyvmHWCmd vbox name⟩]
        match env.bridgedifsQuery with
        | Except.error _ =>
            ⟨t1 ++ [⟨CmdKind.listBridgedifs, bridgedifsCmd⟩], [creatingVmMsg name], 7⟩
        | Except.ok out =>
            let t2 := t1 ++ [⟨CmdKind.listBridgedifs, bridgedifsCmd⟩]
            let installerVdi := pathJoin (pathJoin workingDirectory name) "TcBSD_installer.vdi"
            let runtimeVhd := pathJoin (pathJoin workingDirectory name) "TcBSD.vhd"
            let vboxFile := pathJoin (pathJoin workingDirectory name) (name ++ ".vbox")
            let netPart : List Invocation × List String :=
              match firstAdapterOf out with
              | none => ([], [noBridgedSetupMsg])
              | some a =>
                  if a.isEmpty then ([], [noBridgedSetupMsg])
                  else ([⟨CmdKind.modifyvmNic, nicBridgedCmd vbox name a⟩],
                    [settingBridgedMsg a])
            ⟨t2 ++ netPart.1 ++
                [⟨CmdKind.convertfromraw, convertCmd vbox isoPath installerVdi⟩,
                 ⟨CmdKind.storagectl, storagectlCmd vbox name⟩,
                 ⟨CmdKind.storageattach, attachCmd vbox name 1 installerVdi⟩,
                 ⟨CmdKind.createmedium, createmediumCmd vbox runtimeVhd (jsMul1024 r.hddSizeGB)⟩,
                 ⟨CmdKind.storageattach, attachCmd vbox name 0 runtimeVhd⟩,
                 ⟨CmdKind.startvm, startCmd vboxFile⟩],
             [creatingVmMsg name] ++ netPart.2 ++
                [convertingIsoMsg, creatingHddMsg r.hddSizeGB, startingMsg, completeMsg name],
             0⟩
    else ⟨[], [missingIsoMsg r.isoSelection], 1⟩
  else ⟨[], [vbNotFoundMsg1, vbNotFoundMsg2], 1⟩

/-- One whole run of the base variant. -/
def runProgramBase (env : Env) (ans : Answers) : RunResult :=
  match promptUserBase env ans with
  | Except.error r => r
  | Except.ok (res, t, l) =>
      let s := setupVMBase env res
      ⟨t ++ s.trace, l ++ s.log, s.exitCode⟩

/-- An error object as the `uncaughtException` listener inspects it. -/
structure JsError where
  isErrorInstance : Bool
  errName : String
deriving DecidableEq

inductive HandlerOutcome where
  | swallowed (printed : List String)
  | rethrown (e : JsError)
deriving DecidableEq

/-- The process-level `uncaughtException` listener of both variants:
an `Error` named `ExitPromptError` prints only `Exiting`; everything else
is rethrown. -/
def uncaughtHandler (e : JsError) : HandlerOutcome :=
  if e.isErrorInstance && e.errName = "ExitPromptError" then
    HandlerOutcome.swallowed ["Exiting"]
  else HandlerOutcome.rethrown e

/-- Node semantics around the listener: an installed `uncaughtException`
listener replaces the default exit(1); when it returns normally the
process continues and, with nothing left in the event loop, exits with
code 0.  A throw from inside the listener is fatal and exits with Node's
code 7 (internal exception handler failure), printing the error. -/
def exitCodeAfterUncaught (e : JsError) : Nat :=
  match uncaughtHandler e with
  | HandlerOutcome.swallowed _ => 0
  | HandlerOutcome.rethrown _ => 7

theorem listIncludes_of_infix {needle hay : List Char} (h : needle <:+: hay) :
    listIncludes needle hay = true := by
  induction hay with
  | nil =>
      have : needle = [] := by simpa using h
      simp [listIncludes, this]
  | cons c t ih =>
      rw [List.infix_cons_iff] at h
      rcases h with h | h
      · simp [listIncludes, List.isPrefixOf_iff_prefix, h]
      · simp [listIncludes, ih h]

theorem strIncludes_middle (a b c : String) : strIncludes (a ++ b ++ c) b = true := by
  apply listIncludes_of_infix
  exact ⟨a.toList, c.toList, by simp [String.toList, String.data_append]⟩

theorem strIncludes_of_eq_middle {s : String} (a b c : String)
    (h : s = a ++ b ++ c) : strIncludes s b = true := by
  rw [h]; exact strIncludes_middle a b c

/-- C4: the disk-size validator accepts a string exactly when it coerces
to a number strictly greater than zero; in particular it rejects "0",
"-5" and "abc" and accepts "10", "1" and "250". -/
theorem c4_validator_accepts_iff_positive :
    (∀ s : String, validateHddSize s = true ↔ ∃ x : Rat, jsToNumber s = some x ∧ 0 < x) ∧
    validateHddSize "0" = false ∧ validateHddSize "-5" = false ∧
    validateHddSize "abc" = false ∧ validateHddSize "10" = true ∧
    validateHddSize "1" = true ∧ validateHddSize "250" = true := by
  refine ⟨?_, by decide, by decide, by decide, by decide, by decide, by decide⟩
  intro s
  cases h : jsToNumber s with
  | none => simp [validateHddSize, h]
  | some x => simp [validateHddSize, h]

/-- C10: the create-VM command interpolates the machine name bare, while
the later modify/storage/attach commands interpolate it in double quotes
and the launch command quotes the descriptor path built from it; a name
differs from its quoted form (in particular any name with a space). -/
theorem c10_name_quoting (vbox name folder adapter vdi vhd : String) :
    createvmCmd vbox name folder =
      (dq vbox ++ " createvm --name ") ++ name ++
        (" --basefolder " ++ dq folder ++ " --ostype FreeBSD_64 --register") ∧
    strIncludes (modifyvmHWCmd vbox name) (dq name) = true ∧
    strIncludes (nicNatCmd vbox name) (dq name) = true ∧
    strIncludes (nicBridgedCmd vbox name adapter) (dq name) = true ∧
    strIncludes (storagectlCmd vbox name) (dq name) = true ∧
    strIncludes (attachCmd vbox name 1 vdi) (dq name) = true ∧
    strIncludes (attachCmd vbox name 0 vhd) (dq name) = true ∧
    strIncludes (startCmd (pathJoin (pathJoin folder name) (name ++ ".vbox")))
      (dq (pathJoin (pathJoin folder name) (name ++ ".vbox"))) = true ∧
    (name.toList.contains ' ' = true → name ≠ dq name) := by
  refine ⟨?_, ?_, ?_, ?_, ?_, ?_, ?_, ?_, ?_⟩
  · simp [createvmCmd, String.append_assoc]
  · exact strIncludes_of_eq_middle (dq vbox ++ " modifyvm ") (dq name)
      " --memory 1024 --vram 128 --acpi on --hpet on --graphicscontroller vmsvga --firmware efi64"
      (by simp [modifyvmHWCmd, String.append_assoc])
  · exact strIncludes_of_eq_middle (dq vbox ++ " modifyvm ") (dq name) " --nic1 nat"
      (by simp [nicNatCmd, String.append_assoc])
  · exact strIncludes_of_eq_middle (dq vbox ++ " modifyvm ") (dq name)
      (" --nic1 bridged --bridgeadapter1 " ++ dq adapter)
      (by simp [nicBridgedCmd, String.append_assoc])
  · exact strIncludes_of_eq_middle (dq vbox ++ " storagectl ") (dq name)
      " --name SATA --add sata --controller IntelAhci --hostiocache on --bootable on"
      (by simp [storagectlCmd, String.append_assoc])
  · exact strIncludes_of_eq_middle (dq vbox ++ " storageattach ") (dq name)
      (" --storagectl \"SATA\" --port " ++ toString 1 ++
        " --device 0 --type hdd --medium " ++ dq vdi)
      (by simp [attachCmd, String.append_assoc])
  · exact strIncludes_of_eq_middle (dq vbox ++ " storageattach ") (dq name)
      (" --storagectl \"SATA\" --port " ++ toString 0 ++
        " --device 0 --type hdd --medium " ++ dq vhd)
      (by simp [attachCmd, String.append_assoc])
  · exact strIncludes_of_eq_middle "start \"\" "
      (dq (pathJoin (pathJoin folder name) (name ++ ".vbox"))) ""
      (by simp [startCmd])
  · intro _ h
    have hlen := congrArg String.length h
    simp [dq, String.length_append] at hlen
    have h1 : ("\"" : String).length = 1 := rfl
    rw [h1] at hlen
    omega

/-- C3: image discovery returns exactly the sublist of filenames with an
allowed extension (`.iso` in the base variant, `.iso` or `.img` in the
extended one), preserving listing order, and reports a fatal error instead
of an empty success when no file matches. -/
theorem c3_image_catalog (listing : List String) :
    ((listing.filter isoAllowed).isEmpty = false →
        getAvailableISOs true listing = Except.ok (listing.filter isoAllowed) ∧
        (listing.filter isoAllowed).Sublist listing ∧
        (∀ f, f ∈ listing.filter isoAllowed ↔ f ∈ listing ∧ isoAllowed f = true)) ∧
    ((listing.filter isoAllowed).isEmpty = true →
        getAvailableISOs true listing = Except.error noIsosMsg) ∧
    ((listing.filter imgAllowed).isEmpty = false →
        getAvailableInstallerImages true listing = Except.ok (listing.filter imgAllowed) ∧
        (listing.filter imgAllowed).Sublist listing ∧
        (∀ f, f ∈ listing.filter imgAllowed ↔ f ∈ listing ∧ imgAllowed f = true)) ∧
    ((listing.filter imgAllowed).isEmpty = true →
        getAvailableInstallerImages true listing = Except.error noImagesMsg) := by
  refine ⟨fun h => ⟨?_, List.filter_sublist _, fun f => by simp [List.mem_filter]⟩,
    fun h => ?_, fun h => ⟨?_, List.filter_sublist _, fun f => by simp [List.mem_filter]⟩,
    fun h => ?_⟩ <;> simp [getAvailableISOs, getAvailableInstallerImages, h]

/-- C8 (amended): an `ExitPromptError` reaching the uncaught-exception
listener prints only `Exiting` and the process then exits with code 0
(the listener suppresses the default non-zero crash without installing a
non-zero exit code); every other error is rethrown and the process dies
non-zero with full diagnostics. -/
theorem c8_cancellation_handler (e : JsError) :
    (e.isErrorInstance = true → e.errName = "ExitPromptError" →
        uncaughtHandler e = HandlerOutcome.swallowed ["Exiting"] ∧
        exitCodeAfterUncaught e = 0) ∧
    (e.isErrorInstance = false ∨ e.errName ≠ "ExitPromptError" →
        uncaughtHandler e = HandlerOutcome.rethrown e ∧
        exitCodeAfterUncaught e ≠ 0) := by
  constructor
  · intro h1 h2
    simp [uncaughtHandler, exitCodeAfterUncaught, h1, h2]
  · intro h
    rcases h with h | h <;> simp [uncaughtHandler, exitCodeAfterUncaught, h]

/-- C8 counterexample: on operator cancellation the handled process exits
with code 0, not with a non-zero cancellation code as claimed. -/
theorem c8_exit_code_zero :
    uncaughtHandler ⟨true, "ExitPromptError"⟩ = HandlerOutcome.swallowed ["Exiting"] ∧
    exitCodeAfterUncaught ⟨true, "ExitPromptError"⟩ = 0 := by decide

/-- C9 counterexample: a successful system-properties query whose output
lacks the `Default machine folder:` label yields `none` (JS `null`), not a
usable default path and not the home-directory fallback. -/
theorem c9_no_label_yields_none :
    getDefaultVMFolder
      (Except.ok "Oracle VM VirtualBox system properties\nAPI version: 7_0\n")
      "C:\\Users\\op" = none := by decide

theorem dmfLabel_no_border :
    ∀ m, m < dmfLabel.length → 0 < m →
      dmfLabel.drop m ≠ dmfLabel.take (dmfLabel.length - m) := by decide

theorem dmfLabel_no_straddle (s r : List Char) (h1 : s ≠ [])
    (h2 : s.length < dmfLabel.length) : ¬ dmfLabel <+: s ++ (dmfLabel ++ r) := by
  intro h
  have heq : dmfLabel = (s ++ (dmfLabel ++ r)).take dmfLabel.length :=
    List.prefix_iff_eq_take.mp h
  rw [List.take_append_eq_append_take, List.take_of_length_le (Nat.le_of_lt h2),
    List.take_append_of_le_length (Nat.sub_le _ _)] at heq
  have hdrop : dmfLabel.drop s.length = dmfLabel.take (dmfLabel.length - s.length) := by
    have := congrArg (fun l => l.drop s.length) heq
    simpa [List.drop_left] using this
  exact dmfLabel_no_border s.length h2 (List.length_pos.mpr h1) hdrop

theorem findDmf_none_of_label_absent (l : List Char) (h : ¬ dmfLabel <:+: l) :
    findDmf l = none := by
  induction l with
  | nil => rfl
  | cons c t ih =>
      have hfalse : dmfLabel.isPrefixOf (c :: t) = false := by
        rw [Bool.eq_false_iff]
        intro htrue
        exact h ((List.isPrefixOf_iff_prefix.mp htrue).isInfix)
      simp only [findDmf, hfalse, Bool.false_eq_true, if_false]
      exact ih (fun hh => h (List.infix_cons_iff.mpr (Or.inr hh)))

theorem findDmf_append_clean (pre block : List Char) (hpre : ¬ dmfLabel <:+: pre) :
    findDmf (pre ++ (dmfLabel ++ block)) = findDmf (dmfLabel ++ block) := by
  induction pre with
  | nil => rfl
  | cons c t ih =>
      have hfalse : dmfLabel.isPrefixOf ((c :: t) ++ (dmfLabel ++ block)) = false := by
        rw [Bool.eq_false_iff]
        intro htrue
        rw [List.isPrefixOf_iff_prefix] at htrue
        rcases Nat.lt_or_ge (c :: t).length dmfLabel.length with hlt | hge
        · exact dmfLabel_no_straddle (c :: t) block (by simp) hlt htrue
        · have h1 : dmfLabel = ((c :: t) ++ (dmfLabel ++ block)).take dmfLabel.length :=
            List.prefix_iff_eq_take.mp htrue
          rw [List.take_append_of_le_length hge] at h1
          have : dmfLabel <+: c :: t := h1 ▸ List.take_prefix _ _
          exact hpre this.isInfix
      rw [List.cons_append] at hfalse ⊢
      rw [findDmf, hfalse]
      simp only [Bool.false_eq_true, if_false]
      exact ih (fun hh => hpre (List.infix_cons_iff.mpr (Or.inr hh)))

theorem findDmf_label_head (tl cap : List Char) (h : matchAfterLabel tl = some cap) :
    findDmf (dmfLabel ++ tl) = some cap := by
  have hpref : dmfLabel.isPrefixOf (dmfLabel ++ tl) = true :=
    List.isPrefixOf_iff_prefix.mpr (List.prefix_append _ _)
  have hdrop : (dmfLabel ++ tl).drop dmfLabel.length = tl := List.drop_left _ _
  obtain ⟨c, t, hct⟩ : ∃ c t, dmfLabel ++ tl = c :: t := by
    cases hd : dmfLabel ++ tl with
    | nil =>
        have h0 := congrArg List.length hd
        simp at h0
        exact absurd h0.1 (by decide)
    | cons c t => exact ⟨c, t, rfl⟩
  rw [hct] at hpref hdrop ⊢
  simp only [findDmf, hpref, if_true, hdrop, h]

theorem dropWhile_append_ne_nil {p : Char → Bool} {l₁ : List Char} (l₂ : List Char)
    (h : l₁.dropWhile p ≠ []) : (l₁ ++ l₂).dropWhile p = l₁.dropWhile p ++ l₂ := by
  rw [List.dropWhile_append]
  simp [h]

theorem takeWhile_append_all {p : Char → Bool} {l₁ : List Char} (l₂ : List Char)
    (h : ∀ c ∈ l₁, p c = true) : (l₁ ++ l₂).takeWhile p = l₁ ++ l₂.takeWhile p := by
  induction l₁ with
  | nil => simp
  | cons c t ih =>
      have hc : p c = true := h c (by simp)
      simp only [List.cons_append, List.takeWhile_cons, hc, if_true]
      rw [ih (fun d hd => h d (by simp [hd]))]

theorem dropWhile_of_trimJs_ne_nil {v : List Char} (h : trimJs v ≠ []) :
    v.dropWhile isJsSpace ≠ [] := by
  intro h0
  apply h
  simp [trimJs, h0]

theorem trimJs_dropWhile (v : List Char) : trimJs (v.dropWhile isJsSpace) = trimJs v := by
  simp [trimJs, List.dropWhile_idempotent]

theorem matchAfterLabel_space (v rest : List Char)
    (hv : ∀ c ∈ v, c ≠ '\n' ∧ c ≠ '\r')
    (hne : v.dropWhile isJsSpace ≠ []) :
    matchAfterLabel (' ' :: (v ++ '\n' :: rest)) = some (v.dropWhile isJsSpace) := by
  have hdrop : (v ++ '\n' :: rest).dropWhile isJsSpace =
      v.dropWhile isJsSpace ++ '\n' :: rest := dropWhile_append_ne_nil _ hne
  have hall : ∀ c ∈ v.dropWhile isJsSpace,
      (fun c => c ≠ '\n' && c ≠ '\r') c = true := by
    intro c hc
    have hcv : c ∈ v := (List.dropWhile_sublist isJsSpace).subset hc
    simp [(hv c hcv).1, (hv c hcv).2]
  have htake : (v.dropWhile isJsSpace ++ '\n' :: rest).takeWhile
      (fun c => c ≠ '\n' && c ≠ '\r') = v.dropWhile isJsSpace := by
    rw [takeWhile_append_all _ hall]
    simp [List.takeWhile_cons]
  simp only [ne_eq, decide_not] at htake
  unfold matchAfterLabel
  simp [List.takeWhile_cons, List.dropWhile_cons, hdrop, htake, isJsSpace]

theorem getDefaultVMFolder_label_found (pre v rest : List Char) (home : String)
    (hpre : ¬ dmfLabel <:+: pre)
    (hv : ∀ c ∈ v, c ≠ '\n' ∧ c ≠ '\r')
    (hne : trimJs v ≠ []) :
    getDefaultVMFolder
        (Except.ok (String.mk (pre ++ (dmfLabel ++ ' ' :: (v ++ '\n' :: rest))))) home =
      some (String.mk (trimJs v)) := by
  have hne' := dropWhile_of_trimJs_ne_nil hne
  have hm := matchAfterLabel_space v rest hv hne'
  have hfind := findDmf_label_head (' ' :: (v ++ '\n' :: rest)) _ hm
  have hclean := findDmf_append_clean pre (' ' :: (v ++ '\n' :: rest)) hpre
  show (findDmf (pre ++ (dmfLabel ++ ' ' :: (v ++ '\n' :: rest)))).map
      (fun cap => String.mk (trimJs cap)) = some (String.mk (trimJs v))
  rw [hclean, hfind]
  simp [trimJs_dropWhile]

/-- C9 (amended): the default-folder query never fails the run; it falls
back to the fixed home subfolder exactly when the invocation itself
fails; whenever the query succeeds and the output carries the
`Default machine folder:` label followed by the value, the trimmed value
is extracted (for every prefix, value and remainder of the output); and
whenever the label is absent from a successful query's output the result
is `none` (JS null) — no default path — rather than a fallback. -/
theorem c9_default_folder :
    (∀ home : String,
        getDefaultVMFolder (Except.error ()) home = some (pathJoin home "VirtualBox VMs")) ∧
    (∀ (pre v rest : List Char) (home : String),
        ¬ dmfLabel <:+: pre →
        (∀ c ∈ v, c ≠ '\n' ∧ c ≠ '\r') →
        trimJs v ≠ [] →
        getDefaultVMFolder
            (Except.ok (String.mk (pre ++ (dmfLabel ++ ' ' :: (v ++ '\n' :: rest))))) home =
          some (String.mk (trimJs v))) ∧
    (∀ (output : String) (home : String),
        ¬ dmfLabel <:+: output.toList →
        getDefaultVMFolder (Except.ok output) home = none) ∧
    getDefaultVMFolder
      (Except.ok "Default machine folder:  C:\\Users\\op\\VirtualBox VMs\nAPI version: 7_0\n")
      "h" = some "C:\\Users\\op\\VirtualBox VMs" ∧
    getDefaultVMFolder (Except.ok "API version: 7_0\n") "h" = none := by
  refine ⟨fun home => rfl, ?_, ?_, by decide, by decide⟩
  · intro pre v rest home hpre hv hne
    exact getDefaultVMFolder_label_found pre v rest home hpre hv hne
  · intro output home h
    show (findDmf output.toList).map (fun cap => String.mk (trimJs cap)) = none
    rw [findDmf_none_of_label_absent output.toList h]
    rfl

/-- C7: when the operator chooses Bridged and the adapter scan finds
nothing, the collected request is downgraded to NAT before the
orchestrator acts (the prompt phase issues no mutating command), with the
informational message emitted. -/
theorem c7_nat_fallback (env : Env) (ans : Answers) (res : PromptResult)
    (t : List Invocation) (l : List String)
    (hbr : ans.networkAnswer = "bridged")
    (had : listBridgedAdapters env.bridgedifsQuery = [])
    (hres : promptUserExt env ans = Except.ok (res, t, l)) :
    res.networkType = "nat" ∧ res.bridgedAdapter = none ∧
    noBridgedPromptMsg ∈ l ∧ t.filter (fun i => i.kind.mutating) = [] := by
  cases himg : getAvailableInstallerImages env.imagesFolderExists env.imagesListing with
  | error m => simp [promptUserExt, himg] at hres
  | ok images =>
      by_cases hvb : env.vboxManageExists = true
      · simp [promptUserExt, himg, hbr, hvb, had] at hres
        obtain ⟨hr, ht, hl⟩ := hres
        subst hr ht hl
        simp [CmdKind.mutating]
      · simp [promptUserExt, himg, hbr, hvb] at hres

theorem c7_witness :
    (⟨"VM", "a.iso", some 10, "F", "nat", none⟩ : PromptResult).networkType = "nat" ∧
    (⟨"VM", "a.iso", some 10, "F", "nat", none⟩ : PromptResult).bridgedAdapter = none ∧
    noBridgedPromptMsg ∈ [noBridgedPromptMsg] ∧
    ([⟨CmdKind.listSystemProperties, sysPropsCmd⟩, ⟨CmdKind.listBridgedifs, bridgedifsCmd⟩] :
        List Invocation).filter (fun i => i.kind.mutating) = [] :=
  c7_nat_fallback
    ⟨true, true, ["a.iso"], "c", "h", Except.ok "", Except.ok "", "", fun _ => true⟩
    ⟨"VM", 0, "10", "F", "bridged", 0⟩
    ⟨"VM", "a.iso", some 10, "F", "nat", none⟩
    [⟨CmdKind.listSystemProperties, sysPropsCmd⟩, ⟨CmdKind.listBridgedifs, bridgedifsCmd⟩]
    [noBridgedPromptMsg] (by decide) (by decide) (by rfl)

/-- C5 (amended): an input accepted by the disk-size prompt guarantees its
numeric value is positive, but the stored `hddSizeGB` is `parseInt` of the
raw string, which truncates instead of rejecting fractional input: an
accepted `0.5` stores 0 and an accepted `.5` stores NaN. -/
theorem c5_disk_size_collection (env : Env) (ans : Answers) (res : PromptResult)
    (t : List Invocation) (l : List String)
    (hres : promptUserExt env ans = Except.ok (res, t, l))
    (hval : validateHddSize ans.hddAnswer = true) :
    res.hddSizeGB = jsParseInt ans.hddAnswer ∧
    (∃ x : Rat, jsToNumber ans.hddAnswer = some x ∧ 0 < x) ∧
    jsParseInt "0.5" = some 0 ∧ jsParseInt ".5" = none := by
  have hx : ∃ x : Rat, jsToNumber ans.hddAnswer = some x ∧ 0 < x := by
    cases h : jsToNumber ans.hddAnswer with
    | none => simp [validateHddSize, h] at hval
    | some x =>
        refine ⟨x, rfl, ?_⟩
        simpa [validateHddSize, h] using hval
  refine ⟨?_, hx, by decide, by decide⟩
  cases himg : getAvailableInstallerImages env.imagesFolderExists env.imagesListing with
  | error m => simp [promptUserExt, himg] at hres
  | ok images =>
      simp only [promptUserExt, himg] at hres
      split at hres
      · split at hres
        · split at hres
          · simp at hres
            obtain ⟨hr, _, _⟩ := hres
            subst hr
            rfl
          · simp at hres
            obtain ⟨hr, _, _⟩ := hres
            subst hr
            rfl
        · simp at hres
      · simp at hres
        obtain ⟨hr, _, _⟩ := hres
        subst hr
        rfl

theorem c5_witness :
    (⟨"VM", "a.iso", some 2, "F", "nat", none⟩ : PromptResult).hddSizeGB = jsParseInt "2" ∧
    (∃ x : Rat, jsToNumber "2" = some x ∧ 0 < x) ∧
    jsParseInt "0.5" = some 0 ∧ jsParseInt ".5" = none :=
  c5_disk_size_collection
    ⟨true, true, ["a.iso"], "c", "h", Except.ok "", Except.ok "", "", fun _ => true⟩
    ⟨"VM", 0, "2", "F", "nat", 0⟩
    ⟨"VM", "a.iso", some 2, "F", "nat", none⟩
    [⟨CmdKind.listSystemProperties, sysPropsCmd⟩] [] (by rfl) (by decide)

/-- C5 counterexample: the validator accepts the fractional input `0.5`,
and the prompt then stores `hddSizeGB = 0` in the resulting request — not
a strictly positive integer, and not a rejection at collection time. -/
theorem c5_fractional_accepted :
    validateHddSize "0.5" = true ∧
    (promptUserExt ⟨true, true, ["a.iso"], "c", "h", Except.ok "", Except.ok "", "", fun _ => true⟩
        ⟨"VM", 0, "0.5", "F", "nat", 0⟩).toOption.map (fun p => p.1.hddSizeGB) =
      some (some 0) := by decide

theorem setupVMExt_collision (env : Env) (r : PromptResult)
    (hdup : strIncludes env.listVMsOutput (dq r.virtualMachineName) = true) :
    (setupVMExt env r).trace.filter (fun i => i.kind.mutating) = [] ∧
    (setupVMExt env r).exitCode = 1 := by
  simp only [setupVMExt]
  split
  · split
    · simp [hdup, CmdKind.mutating]
    · simp [CmdKind.mutating]
  · simp [CmdKind.mutating]

theorem setupVMBase_collision (env : Env) (r : BasePromptResult)
    (hdup : strIncludes env.listVMsOutput (dq r.virtualMachineName) = true) :
    (setupVMBase env r).trace.filter (fun i => i.kind.mutating) = [] ∧
    (setupVMBase env r).exitCode = 1 := by
  simp only [setupVMBase]
  split
  · split
    · simp [hdup, CmdKind.mutating]
    · simp [CmdKind.mutating]
  · simp [CmdKind.mutating]

theorem promptUserExt_shape (env : Env) (ans : Answers) :
    (∀ r, promptUserExt env ans = Except.error r →
      r.trace.filter (fun i => i.kind.mutating) = [] ∧ r.exitCode = 1) ∧
    (∀ res t l, promptUserExt env ans = Except.ok (res, t, l) →
      res.virtualMachineName = ans.nameAnswer ∧
      t.filter (fun i => i.kind.mutating) = []) := by
  cases himg : getAvailableInstallerImages env.imagesFolderExists env.imagesListing with
  | error m =>
      constructor
      · intro r h
        simp [promptUserExt, himg] at h
        subst h
        simp [CmdKind.mutating]
      · intro res t l h
        simp [promptUserExt, himg] at h
  | ok images =>
      constructor
      · intro r h
        simp only [promptUserExt, himg] at h
        split at h
        · split at h
          · split at h <;> simp at h
          · simp at h
            subst h
            simp [CmdKind.mutating]
        · simp at h
      · intro res t l h
        simp only [promptUserExt, himg] at h
        split at h
        · split at h
          · split at h <;>
              · simp at h
                obtain ⟨hr, ht, hl⟩ := h
                subst hr ht
                simp [CmdKind.mutating]
          · simp at h
        · simp at h
          obtain ⟨hr, ht, hl⟩ := h
          subst hr ht
          simp [CmdKind.mutating]

theorem promptUserBase_shape (env : Env) (ans : Answers) :
    (∀ r, promptUserBase env ans = Except.error r →
      r.trace.filter (fun i => i.kind.mutating) = [] ∧ r.exitCode = 1) ∧
    (∀ res t l, promptUserBase env ans = Except.ok (res, t, l) →
      res.virtualMachineName = ans.nameAnswer ∧
      t.filter (fun i => i.kind.mutating) = []) := by
  cases hiso : getAvailableISOs env.imagesFolderExists env.imagesListing with
  | error m =>
      constructor
      · intro r h
        simp [promptUserBase, hiso] at h
        subst h
        simp [CmdKind.mutating]
      · intro res t l h
        simp [promptUserBase, hiso] at h
  | ok isos =>
      constructor
      · intro r h
        simp [promptUserBase, hiso] at h
      · intro res t l h
        simp [promptUserBase, hiso] at h
        obtain ⟨hr, ht, hl⟩ := h
        subst hr ht
        simp [CmdKind.mutating]

/-- C2: a VM-name collision (the quoted requested name appears in the
`list vms` output) makes either variant halt before any mutating command:
the whole run issues zero mutating invocations and exits non-zero. -/
theorem c2_collision_halts (env : Env) (ans : Answers)
    (hdup : strIncludes env.listVMsOutput (dq ans.nameAnswer) = true) :
    ((runProgramExt env ans).trace.filter (fun i => i.kind.mutating) = [] ∧
      (runProgramExt env ans).exitCode ≠ 0) ∧
    ((runProgramBase env ans).trace.filter (fun i => i.kind.mutating) = [] ∧
      (runProgramBase env ans).exitCode ≠ 0) := by
  constructor
  · cases hrun : promptUserExt env ans with
    | error r =>
        have hs := (promptUserExt_shape env ans).1 r hrun
        simp [runProgramExt, hrun, hs.1, hs.2]
    | ok p =>
        obtain ⟨res, t, l⟩ := p
        have hs := (promptUserExt_shape env ans).2 res t l hrun
        have hcol := setupVMExt_collision env res (by rw [hs.1]; exact hdup)
        simp [runProgramExt, hrun, List.filter_append, hs.2, hcol.1, hcol.2]
  · cases hrun : promptUserBase env ans with
    | error r =>
        have hs := (promptUserBase_shape env ans).1 r hrun
        simp [runProgramBase, hrun, hs.1, hs.2]
    | ok p =>
        obtain ⟨res, t, l⟩ := p
        have hs := (promptUserBase_shape env ans).2 res t l hrun
        have hcol := setupVMBase_collision env res (by rw [hs.1]; exact hdup)
        simp [runProgramBase, hrun, List.filter_append, hs.2, hcol.1, hcol.2]

theorem c2_witness :
    ((runProgramExt
        ⟨true, true, ["a.iso"], "c", "h", Except.ok "", Except.ok "", "\"MyVM\" uuid-1", fun _ => true⟩
        ⟨"MyVM", 0, "10", "F", "nat", 0⟩).trace.filter (fun i => i.kind.mutating) = [] ∧
      (runProgramExt
        ⟨true, true, ["a.iso"], "c", "h", Except.ok "", Except.ok "", "\"MyVM\" uuid-1", fun _ => true⟩
        ⟨"MyVM", 0, "10", "F", "nat", 0⟩).exitCode ≠ 0) ∧
    ((runProgramBase
        ⟨true, true, ["a.iso"], "c", "h", Except.ok "", Except.ok "", "\"MyVM\" uuid-1", fun _ => true⟩
        ⟨"MyVM", 0, "10", "F", "nat", 0⟩).trace.filter (fun i => i.kind.mutating) = [] ∧
      (runProgramBase
        ⟨true, true, ["a.iso"], "c", "h", Except.ok "", Except.ok "", "\"MyVM\" uuid-1", fun _ => true⟩
        ⟨"MyVM", 0, "10", "F", "nat", 0⟩).exitCode ≠ 0) :=
  c2_collision_halts
    ⟨true, true, ["a.iso"], "c", "h", Except.ok "", Except.ok "", "\"MyVM\" uuid-1", fun _ => true⟩
    ⟨"MyVM", 0, "10", "F", "nat", 0⟩ (by decide)

/-- C6: the size argument of the `createmedium` call is exactly
`hddSizeGB * 1024` (binary conversion): the one `createmedium` invocation
of a provisioning run carries `jsMul1024 hddSizeGB`, and 10 GB gives
10240 MB, 1 GB gives 1024 MB. -/
theorem c6_runtime_disk_size (env : Env) (r : PromptResult)
    (hvb : env.vboxManageExists = true)
    (hfile : env.fileExists (pathJoin (installerImagesFolder env.cwd) r.imgSelection) = true)
    (hdup : strIncludes env.listVMsOutput (dq r.virtualMachineName) = false) :
    (setupVMExt env r).trace.filter (fun i => decide (i.kind = CmdKind.createmedium)) =
      [⟨CmdKind.createmedium,
        createmediumCmd vboxManageFile
          (pathJoin (pathJoin r.vmFolder r.virtualMachineName) "TcBSD.vhd")
          (jsMul1024 r.hddSizeGB)⟩] ∧
    jsMul1024 (some 10) = some 10240 ∧ jsMul1024 (some 1) = some 1024 := by
  refine ⟨?_, by decide, by decide⟩
  simp [setupVMExt, hvb, hfile, hdup]
  split
  · cases r.bridgedAdapter <;> simp
  · simp

theorem c6_witness :
    (setupVMExt
        ⟨true, true, ["a.iso"], "c", "h", Except.ok "", Except.ok "", "", fun _ => true⟩
        ⟨"VM", "a.iso", some 10, "F", "nat", none⟩).trace.filter
        (fun i => decide (i.kind = CmdKind.createmedium)) =
      [⟨CmdKind.createmedium,
        createmediumCmd vboxManageFile (pathJoin (pathJoin "F" "VM") "TcBSD.vhd")
          (jsMul1024 (some 10))⟩] ∧
    jsMul1024 (some 10) = some 10240 ∧ jsMul1024 (some 1) = some 1024 :=
  c6_runtime_disk_size
    ⟨true, true, ["a.iso"], "c", "h", Except.ok "", Except.ok "", "", fun _ => true⟩
    ⟨"VM", "a.iso", some 10, "F", "nat", none⟩ (by decide) (by decide) (by decide)

/-- C1 (amended): a completed precondition-passing run issues the
provisioning command strings exactly once each, in the fixed order
create-VM, set-hardware, configure-network, convert image, create
storage controller, attach the installer disk to port 1, create the
runtime disk, attach the runtime disk to port 0, launch the descriptor —
each pinned with its full command text, ports and media — and exits 0:
unconditionally in the extended variant, and in the base variant only
when the first line of the adapter listing yields a nonempty adapter
name; a base run without such an adapter skips the network-configure
command and issues the remaining eight commands in the same order, still
exiting 0. -/
theorem c1_provisioning_order (env : Env) (ans : Answers) :
    ((env.imagesFolderExists = true ∧
      (env.imagesListing.filter imgAllowed).isEmpty = false ∧
      env.vboxManageExists = true ∧
      env.fileExists (pathJoin (installerImagesFolder env.cwd)
        ((env.imagesListing.filter imgAllowed)[ans.imgIndex]?.getD "")) = true ∧
      strIncludes env.listVMsOutput (dq ans.nameAnswer) = false ∧
      (ans.networkAnswer = "nat" ∨
        (ans.networkAnswer = "bridged" ∧
          ((listBridgedAdapters env.bridgedifsQuery).isEmpty = true ∨
            ans.adapterIndex < (listBridgedAdapters env.bridgedifsQuery).length)))) →
      (∃ nic, (nic = nicNatCmd vboxManageFile ans.nameAnswer ∨
          ∃ a, nic = nicBridgedCmd vboxManageFile ans.nameAnswer a) ∧
        (runProgramExt env ans).trace.filter (fun i => i.kind.mutating) =
          [⟨CmdKind.createvm, createvmCmd vboxManageFile ans.nameAnswer ans.folderAnswer⟩,
           ⟨CmdKind.modifyvmHW, modifyvmHWCmd vboxManageFile ans.nameAnswer⟩,
           ⟨CmdKind.modifyvmNic, nic⟩,
           ⟨CmdKind.convertfromraw,
             convertCmd vboxManageFile
               (pathJoin (installerImagesFolder env.cwd)
                 ((env.imagesListing.filter imgAllowed)[ans.imgIndex]?.getD ""))
               (pathJoin (pathJoin ans.folderAnswer ans.nameAnswer) "TcBSD_installer.vdi")⟩,
           ⟨CmdKind.storagectl, storagectlCmd vboxManageFile ans.nameAnswer⟩,
           ⟨CmdKind.storageattach,
             attachCmd vboxManageFile ans.nameAnswer 1
               (pathJoin (pathJoin ans.folderAnswer ans.nameAnswer) "TcBSD_installer.vdi")⟩,
           ⟨CmdKind.createmedium,
             createmediumCmd vboxManageFile
               (pathJoin (pathJoin ans.folderAnswer ans.nameAnswer) "TcBSD.vhd")
               (jsMul1024 (jsParseInt ans.hddAnswer))⟩,
           ⟨CmdKind.storageattach,
             attachCmd vboxManageFile ans.nameAnswer 0
               (pathJoin (pathJoin ans.folderAnswer ans.nameAnswer) "TcBSD.vhd")⟩,
           ⟨CmdKind.startvm,
             startCmd (pathJoin (pathJoin ans.folderAnswer ans.nameAnswer)
               (ans.nameAnswer ++ ".vbox"))⟩] ∧
        (runProgramExt env ans).exitCode = 0)) ∧
    (∀ bout a, env.bridgedifsQuery = Except.ok bout → firstAdapterOf bout = some a →
      a.isEmpty = false →
      env.imagesFolderExists = true →
      (env.imagesListing.filter isoAllowed).isEmpty = false →
      env.vboxManageExists = true →
      env.fileExists (pathJoin (isoFolder env.cwd)
        ((env.imagesListing.filter isoAllowed)[ans.imgIndex]?.getD "")) = true →
      strIncludes env.listVMsOutput (dq ans.nameAnswer) = false →
      ((runProgramBase env ans).trace.filter (fun i => i.kind.mutating) =
          [⟨CmdKind.createvm, createvmCmd vboxManageFile ans.nameAnswer ans.folderAnswer⟩,
           ⟨CmdKind.modifyvmHW, modifyvmHWCmd vboxManageFile ans.nameAnswer⟩,
           ⟨CmdKind.modifyvmNic, nicBridgedCmd vboxManageFile ans.nameAnswer a⟩,
           ⟨CmdKind.convertfromraw,
             convertCmd vboxManageFile
               (pathJoin (isoFolder env.cwd)
                 ((env.imagesListing.filter isoAllowed)[ans.imgIndex]?.getD ""))
               (pathJoin (pathJoin ans.folderAnswer ans.nameAnswer) "TcBSD_installer.vdi")⟩,
           ⟨CmdKind.storagectl, storagectlCmd vboxManageFile ans.nameAnswer⟩,
           ⟨CmdKind.storageattach,
             attachCmd vboxManageFile ans.nameAnswer 1
               (pathJoin (pathJoin ans.folderAnswer ans.nameAnswer) "TcBSD_installer.vdi")⟩,
           ⟨CmdKind.createmedium,
             createmediumCmd vboxManageFile
               (pathJoin (pathJoin ans.folderAnswer ans.nameAnswer) "TcBSD.vhd")
               (jsMul1024 (jsParseInt ans.hddAnswer))⟩,
           ⟨CmdKind.storageattach,
             attachCmd vboxManageFile ans.nameAnswer 0
               (pathJoin (pathJoin ans.folderAnswer ans.nameAnswer) "TcBSD.vhd")⟩,
           ⟨CmdKind.startvm,
             startCmd (pathJoin (pathJoin ans.folderAnswer ans.nameAnswer)
               (ans.nameAnswer ++ ".vbox"))⟩] ∧
        (runProgramBase env ans).exitCode = 0)) ∧
    (∀ bout, env.bridgedifsQuery = Except.ok bout →
      ((firstAdapterOf bout).getD "").isEmpty = true →
      env.imagesFolderExists = true →
      (env.imagesListing.filter isoAllowed).isEmpty = false →
      env.vboxManageExists = true →
      env.fileExists (pathJoin (isoFolder env.cwd)
        ((env.imagesListing.filter isoAllowed)[ans.imgIndex]?.getD "")) = true →
      strIncludes env.listVMsOutput (dq ans.nameAnswer) = false →
      ((runProgramBase env ans).trace.filter (fun i => i.kind.mutating) =
          [⟨CmdKind.createvm, createvmCmd vboxManageFile ans.nameAnswer ans.folderAnswer⟩,
           ⟨CmdKind.modifyvmHW, modifyvmHWCmd vboxManageFile ans.nameAnswer⟩,
           ⟨CmdKind.convertfromraw,
             convertCmd vboxManageFile
               (pathJoin (isoFolder env.cwd)
                 ((env.imagesListing.filter isoAllowed)[ans.imgIndex]?.getD ""))
               (pathJoin (pathJoin ans.folderAnswer ans.nameAnswer) "TcBSD_installer.vdi")⟩,
           ⟨CmdKind.storagectl, storagectlCmd vboxManageFile ans.nameAnswer⟩,
           ⟨CmdKind.storageattach,
             attachCmd vboxManageFile ans.nameAnswer 1
               (pathJoin (pathJoin ans.folderAnswer ans.nameAnswer) "TcBSD_installer.vdi")⟩,
           ⟨CmdKind.createmedium,
             createmediumCmd vboxManageFile
               (pathJoin (pathJoin ans.folderAnswer ans.nameAnswer) "TcBSD.vhd")
               (jsMul1024 (jsParseInt ans.hddAnswer))⟩,
           ⟨CmdKind.storageattach,
             attachCmd vboxManageFile ans.nameAnswer 0
               (pathJoin (pathJoin ans.folderAnswer ans.nameAnswer) "TcBSD.vhd")⟩,
           ⟨CmdKind.startvm,
             startCmd (pathJoin (pathJoin ans.folderAnswer ans.nameAnswer)
               (ans.nameAnswer ++ ".vbox"))⟩] ∧
        (runProgramBase env ans).exitCode = 0)) := by
  refine ⟨?_, ?_, ?_⟩
  · rintro ⟨hfold, himgs, hvb, hfile, hdup, hnet⟩
    have himg : getAvailableInstallerImages env.imagesFolderExists env.imagesListing =
        Except.ok (env.imagesListing.filter imgAllowed) := by
      simp [getAvailableInstallerImages, hfold, himgs]
    rcases hnet with hnat | ⟨hbr, hada⟩
    · refine ⟨nicNatCmd vboxManageFile ans.nameAnswer, Or.inl rfl, ?_, ?_⟩ <;>
        simp [runProgramExt, promptUserExt, himg, hnat, setupVMExt, hvb, hfile, hdup,
          CmdKind.mutating]
    · rcases hada with hemp | hidx
      · refine ⟨nicNatCmd vboxManageFile ans.nameAnswer, Or.inl rfl, ?_, ?_⟩ <;>
          simp [runProgramExt, promptUserExt, himg, hbr, hvb, hemp, setupVMExt, hfile, hdup,
            CmdKind.mutating]
      · have hemp : (listBridgedAdapters env.bridgedifsQuery).isEmpty = false := by
          cases h : listBridgedAdapters env.bridgedifsQuery with
          | nil => rw [h] at hidx; simp at hidx
          | cons a t => rfl
        obtain ⟨a, ha⟩ : ∃ a,
            (listBridgedAdapters env.bridgedifsQuery)[ans.adapterIndex]? = some a :=
          ⟨_, List.getElem?_eq_getElem hidx⟩
        refine ⟨nicBridgedCmd vboxManageFile ans.nameAnswer a, Or.inr ⟨a, rfl⟩, ?_, ?_⟩ <;>
          simp [runProgramExt, promptUserExt, himg, hbr, hvb, hemp, ha, setupVMExt, hfile,
            hdup, CmdKind.mutating]
  · intro bout a hbq hfa hane hfold hisos hvb hfile hdup
    have hiso : getAvailableISOs env.imagesFolderExists env.imagesListing =
        Except.ok (env.imagesListing.filter isoAllowed) := by
      simp [getAvailableISOs, hfold, hisos]
    constructor <;>
      simp [runProgramBase, promptUserBase, hiso, setupVMBase, hvb, hfile, hdup, hbq, hfa,
        hane, CmdKind.mutating]
  · intro bout hbq hfa hfold hisos hvb hfile hdup
    have hiso : getAvailableISOs env.imagesFolderExists env.imagesListing =
        Except.ok (env.imagesListing.filter isoAllowed) := by
      simp [getAvailableISOs, hfold, hisos]
    cases h : firstAdapterOf bout with
    | none =>
        constructor <;>
          simp [runProgramBase, promptUserBase, hiso, setupVMBase, hvb, hfile, hdup, hbq, h,
            CmdKind.mutating]
    | some a =>
        rw [h] at hfa
        simp at hfa
        constructor <;>
          simp [runProgramBase, promptUserBase, hiso, setupVMBase, hvb, hfile, hdup, hbq, h,
            hfa, CmdKind.mutating]

/-- C1 counterexample: a completed base-variant run in which every
precondition check passes but the adapter listing's first line parses to
nothing — the run exits 0 having issued eight mutating commands and no
network-configure invocation, so the network-configure command is not
issued "exactly once". -/
theorem c1_base_run_skips_network :
    (runProgramBase
        ⟨true, true, ["tcbsd.iso"], "C:\\repo", "C:\\Users\\op", Except.ok "sys",
          Except.ok "", "no machines", fun _ => true⟩
        ⟨"TwinCAT_BSD_20250724_134205", 0, "10", "C:\\VMs", "nat", 0⟩).exitCode = 0 ∧
    ((runProgramBase
        ⟨true, true, ["tcbsd.iso"], "C:\\repo", "C:\\Users\\op", Except.ok "sys",
          Except.ok "", "no machines", fun _ => true⟩
        ⟨"TwinCAT_BSD_20250724_134205", 0, "10", "C:\\VMs", "nat", 0⟩).trace.filter
        (fun i => decide (i.kind = CmdKind.modifyvmNic))).length = 0 ∧
    ((runProgramBase
        ⟨true, true, ["tcbsd.iso"], "C:\\repo", "C:\\Users\\op", Except.ok "sys",
          Except.ok "", "no machines", fun _ => true⟩
        ⟨"TwinCAT_BSD_20250724_134205", 0, "10", "C:\\VMs", "nat", 0⟩).trace.filter
        (fun i => i.kind.mutating)).length = 8 := by decide

theorem c1_witness :
    (∃ nic, (nic = nicNatCmd vboxManageFile "MyVM" ∨
        ∃ a, nic = nicBridgedCmd vboxManageFile "MyVM" a) ∧
      (runProgramExt
          ⟨true, true, ["tcbsd.iso"], "C:\\repo", "C:\\Users\\op", Except.ok "sys",
            Except.ok "", "no machines", fun _ => true⟩
          ⟨"MyVM", 0, "10", "C:\\VMs", "nat", 0⟩).trace.filter (fun i => i.kind.mutating) =
        [⟨CmdKind.createvm, createvmCmd vboxManageFile "MyVM" "C:\\VMs"⟩,
         ⟨CmdKind.modifyvmHW, modifyvmHWCmd vboxManageFile "MyVM"⟩,
         ⟨CmdKind.modifyvmNic, nic⟩,
         ⟨CmdKind.convertfromraw,
           convertCmd vboxManageFile
             (pathJoin (installerImagesFolder "C:\\repo")
               ((["tcbsd.iso"].filter imgAllowed)[(0 : Nat)]?.getD ""))
             (pathJoin (pathJoin "C:\\VMs" "MyVM") "TcBSD_installer.vdi")⟩,
         ⟨CmdKind.storagectl, storagectlCmd vboxManageFile "MyVM"⟩,
         ⟨CmdKind.storageattach,
           attachCmd vboxManageFile "MyVM" 1
             (pathJoin (pathJoin "C:\\VMs" "MyVM") "TcBSD_installer.vdi")⟩,
         ⟨CmdKind.createmedium,
           createmediumCmd vboxManageFile (pathJoin (pathJoin "C:\\VMs" "MyVM") "TcBSD.vhd")
             (jsMul1024 (jsParseInt "10"))⟩,
         ⟨CmdKind.storageattach,
           attachCmd vboxManageFile "MyVM" 0
             (pathJoin (pathJoin "C:\\VMs" "MyVM") "TcBSD.vhd")⟩,
         ⟨CmdKind.startvm,
           startCmd (pathJoin (pathJoin "C:\\VMs" "MyVM") ("MyVM" ++ ".vbox"))⟩] ∧
      (runProgramExt
          ⟨true, true, ["tcbsd.iso"], "C:\\repo", "C:\\Users\\op", Except.ok "sys",
            Except.ok "", "no machines", fun _ => true⟩
          ⟨"MyVM", 0, "10", "C:\\VMs", "nat", 0⟩).exitCode = 0) :=
  (c1_provisioning_order
    ⟨true, true, ["tcbsd.iso"], "C:\\repo", "C:\\Users\\op", Except.ok "sys",
      Except.ok "", "no machines", fun _ => true⟩
    ⟨"MyVM", 0, "10", "C:\\VMs", "nat", 0⟩).1 (by decide)
